import Mathlib

/-!
Shallow embedding of `src/psrsigsim/pulsar/portraits.py`.

The module defines a base class `PulsePortrait`, a concrete 1-D
`GaussPortrait` (sum of Gaussian components), and two unimplemented
variants (a second, 2-D class also named `GaussPortrait`, and
`UserPortrait`).  Numeric arrays are modelled as `List ℝ`; a 2-D numpy
array of shape (components × phases) is a `List (List ℝ)`.  Python
exceptions are modelled with `Except PyErr`.  Methods that can mutate the
instance return the post-state explicitly.
-/

namespace Portraits

/-- The Python exceptions that the module's call paths can raise. -/
inductive PyErr where
  | notImplementedError
  | attributeError (name : String)
  | unboundLocalError (name : String)
  | valueError
  deriving DecidableEq

/-- A constructor parameter of the 1-D `GaussPortrait`: either a Python
scalar or a 1-D numpy array (`peak`, `width` and `amp` each have this
shape freedom per the class docstring). -/
inductive Param where
  | scalar (x : ℝ)
  | array (xs : List ℝ)

/-- Instance state of a (1-D) `GaussPortrait`: `__init__` stores `_peak`,
`_width`, `_amp`; `init_profile` later assigns `_profile` and `_Amax`
(absent on a fresh instance, hence `Option`). -/
structure GPState where
  _peak : Param
  _width : Param
  _amp : Param
  _profile : Option (List (List ℝ)) := none
  _Amax : Option ℝ := none

/-- Embedding of `GaussPortrait.__init__(peak, width, amp)`: stores the three parameters
unvalidated; no profile or Amax exists yet. -/
def GaussPortrait_init (peak width amp : Param) : GPState :=
  { _peak := peak, _width := width, _amp := amp, _profile := none, _Amax := none }

/-- Embedding of `np.amax` / `ndarray.max()`: maximum entry of a list of reals.  The
`[]` case is junk (numpy raises `ValueError` there); every use below is
guarded by a nonemptiness check mirroring that behaviour. -/
def lmax : List ℝ → ℝ
  | [] => 0
  | x :: xs => xs.foldl max x

/-- One Gaussian kernel sample: `amp * exp(-0.5 * ((x - peak)/width)^2)`,
the elementwise formula of `GaussPortrait.calc_profile`. -/
noncomputable def gaussVal (a p w x : ℝ) : ℝ :=
  a * Real.exp (-(1 / 2 : ℝ) * ((x - p) / w) ^ 2)

/-- The broadcast expression of the `try:` block of
`GaussPortrait.calc_profile` for equal-length array parameters:
`amp[:,newaxis] * exp(-0.5*((ph[newaxis,:]-peak[:,newaxis])/width[:,newaxis])**2)`,
a 2-D array with one row per Gaussian component and one column per query
phase.  (Note the source computes no sum over the component axis.) -/
noncomputable def rawProfile (amp peak width phases : List ℝ) : List (List ℝ) :=
  (amp.zip (peak.zip width)).map (fun t => phases.map (gaussVal t.1 t.2.1 t.2.2))

/-- Embedding of `np.arange(Nphase)/Nphase`, the canonical phase grid of `init_profile`. -/
noncomputable def phaseGrid (Nphase : ℕ) : List ℝ :=
  (List.range Nphase).map (fun i : ℕ => (i : ℝ) / (Nphase : ℝ))

/-- Embedding of `GaussPortrait.calc_profile(phases)` (the 1-D class).

The `try:` block subscripts all three parameters with `[:, np.newaxis]`;
if any of them is a scalar this raises `TypeError`, the
`except TypeError:` branch executes `profile += ...` with the local
zero-initialization line commented out in the source
(`# profile = np.zeros_like(ph)`), and the method dies with
`UnboundLocalError` on `profile`.  Arrays of unequal length fail numpy
broadcasting with an uncaught `ValueError` (length-1 broadcasting is not
modelled; no claim involves it).  The resulting 2-D array is divided by
`self.Amax` when `_Amax` is present, else by its own `np.amax` (which
raises `ValueError` on an empty array).  The body assigns no instance
attribute, so the state is returned unchanged. -/
noncomputable def calc_profile (s : GPState) (phases : List ℝ) :
    Except PyErr (List (List ℝ) × GPState) :=
  match s._amp, s._peak, s._width with
  | Param.array am, Param.array pk, Param.array wd =>
    if am.length = pk.length ∧ pk.length = wd.length then
      let profile := rawProfile am pk wd phases
      match s._Amax with
      | some A => Except.ok (profile.map (fun row => row.map (fun x => x / A)), s)
      | none =>
        if profile.flatten.isEmpty then Except.error PyErr.valueError
        else Except.ok
          (profile.map (fun row => row.map (fun x => x / lmax profile.flatten)), s)
    else Except.error PyErr.valueError
  | _, _, _ => Except.error (PyErr.unboundLocalError "profile")

/-- Embedding of `GaussPortrait.init_profile(Nphase)`: evaluates `calc_profile` on the
canonical grid, stores the result in `self._profile`, records
`self._profile.max()` as `self._Amax`, then divides the stored profile in
place by `self.Amax`.  (`ndarray.max()` raises `ValueError` on an empty
array; in that corner the source has already assigned `_profile` before
dying — a partial mutation this error-as-value model does not track, and
no claim touches it.) -/
noncomputable def init_profile (s : GPState) (Nphase : ℕ) : Except PyErr GPState :=
  match calc_profile s (phaseGrid Nphase) with
  | Except.error e => Except.error e
  | Except.ok (prof, s₁) =>
    if prof.flatten.isEmpty then Except.error PyErr.valueError
    else
      let A := lmax prof.flatten
      Except.ok { s₁ with
        _profile := some (prof.map (fun row => row.map (fun x => x / A))),
        _Amax := some A }

/-- Python attribute lookup of the name `_portrait` on a 1-D portrait
instance, as performed by `PulsePortrait.__call__` when `phases is None`.
The class body of `PulsePortrait` defines `_profile = None` (not
`_portrait`), and no method of `PulsePortrait` or of the 1-D
`GaussPortrait` ever assigns `self._portrait`; the lookup therefore falls
through the instance and class dictionaries and raises `AttributeError`
for every instance and every state. -/
def getattr_portrait (_s : GPState) : Except PyErr (Option (List (List ℝ))) :=
  Except.error (PyErr.attributeError "_portrait")

/-- Embedding of `PulsePortrait.calc_portrait(phases)`: the base class method body is
`raise NotImplementedError()`.  The 1-D `GaussPortrait` defines
`calc_profile` but never overrides `calc_portrait`, so dynamic dispatch of
`self.calc_portrait` on any 1-D portrait instance resolves to this base
method. -/
def PulsePortrait_calc_portrait (_s : GPState) (_phases : List ℝ) :
    Except PyErr (List (List ℝ)) :=
  Except.error PyErr.notImplementedError

/-- Embedding of `PulsePortrait.__call__(phases=None)`.  With `phases=None` it reads
`self._portrait` (see `getattr_portrait`), logs the warning
message from the source when that value is `None`,
and returns it; with explicit phases it returns
`self.calc_portrait(phases)`.  The result carries the list of emitted
warning messages and the (unchanged) state. -/
def PulsePortrait_call (s : GPState) (phases : Option (List ℝ)) :
    Except PyErr (List String × Option (List (List ℝ)) × GPState) :=
  match phases with
  | none =>
    match getattr_portrait s with
    | Except.error e => Except.error e
    | Except.ok p =>
      let warns := if p.isNone then ["Base profile not generated, returning None"] else []
      Except.ok (warns, p, s)
  | some ph =>
    match PulsePortrait_calc_portrait s ph with
    | Except.error e => Except.error e
    | Except.ok r => Except.ok ([], some r, s)

/-- Embedding of the constructor of the second, 2-D frequency-resolved class named
`GaussPortrait` (it derives from `PulseProfile`): the body is
`raise NotImplementedError()` for every argument combination, so no
instance is ever produced. -/
def GaussPortrait2D_init (_peak _width _amp : Param) (_Nphase : ℕ)
    (_freqs : Option (List ℝ)) : Except PyErr Unit :=
  Except.error PyErr.notImplementedError

/-- Embedding of `UserPortrait.__init__`: the body is `raise NotImplementedError()`,
so no instance is ever produced. -/
def UserPortrait_init : Except PyErr Unit :=
  Except.error PyErr.notImplementedError

/-- Projection of a method result onto the cached `_Amax` field (used to
state concrete counterexamples about the post-state). -/
def amaxOf : Except PyErr GPState → Option ℝ
  | Except.ok s => s._Amax
  | Except.error _ => none

/-- Projection of a method result onto the cached `_profile` field. -/
def profileOf : Except PyErr GPState → Option (List (List ℝ))
  | Except.ok s => s._profile
  | Except.error _ => none

/-- Concrete scenario of the spec: `GaussPortrait(peak=0.5, width=0.05, amp=1)`,
all three parameters scalars. -/
noncomputable def scalarPortrait : GPState :=
  GaussPortrait_init (Param.scalar (1 / 2)) (Param.scalar (1 / 20)) (Param.scalar 1)

/-- Concrete two-component portrait of the spec:
`GaussPortrait(peak=[0.2,0.7], width=[0.05,0.05], amp=[1,0.5])`. -/
noncomputable def twoCompPortrait : GPState :=
  GaussPortrait_init (Param.array [1 / 5, 7 / 10]) (Param.array [1 / 20, 1 / 20])
    (Param.array [1, 1 / 2])

/-- Concrete single-component portrait with `peak=[0]`, `width=[1]`, `amp=[1]`
(array parameters), used as a witness instance. -/
noncomputable def unitPortrait : GPState :=
  GaussPortrait_init (Param.array [0]) (Param.array [1]) (Param.array [1])

/-- Concrete single-component portrait with `peak=[0]`, `width=[1]`, `amp=[2]`:
its raw intensity maximum on any grid containing phase 0 is 2, not 1. -/
noncomputable def ampTwoPortrait : GPState :=
  GaussPortrait_init (Param.array [0]) (Param.array [1]) (Param.array [2])

/-- The value `calc_profile` returns for `unitPortrait` on the phase query
`[0]` (spelled out so a witness can name it in a closed statement). -/
noncomputable def unitCalcResult : List (List ℝ) :=
  (rawProfile [1] [0] [1] [0]).map
    (fun row => row.map (fun x => x / lmax (rawProfile [1] [0] [1] [0]).flatten))

/-! ### Generic facts about `lmax` (the embedding of `np.amax`) -/

theorem foldl_max_map_comm (f : ℝ → ℝ) (hf : ∀ a b : ℝ, f (max a b) = max (f a) (f b)) :
    ∀ (xs : List ℝ) (a : ℝ), (xs.map f).foldl max (f a) = f (xs.foldl max a) := by
  intro xs
  induction xs with
  | nil => intro a; rfl
  | cons x t ih =>
    intro a
    simp only [List.map_cons, List.foldl_cons]
    rw [← hf]
    exact ih (max a x)

theorem lmax_map_comm (f : ℝ → ℝ) (hf : ∀ a b : ℝ, f (max a b) = max (f a) (f b))
    (xs : List ℝ) (h : xs ≠ []) : lmax (xs.map f) = f (lmax xs) := by
  cases xs with
  | nil => cases h rfl
  | cons x t =>
    simp only [List.map_cons, lmax]
    exact foldl_max_map_comm f hf t x

theorem lmax_map_div (xs : List ℝ) (h : xs ≠ []) {c : ℝ} (hc : 0 ≤ c) :
    lmax (xs.map (fun x => x / c)) = lmax xs / c :=
  lmax_map_comm _ (fun a b => (max_div_div_right hc a b).symm) xs h

theorem foldl_max_eq_or_mem : ∀ (xs : List ℝ) (a : ℝ),
    xs.foldl max a = a ∨ xs.foldl max a ∈ xs := by
  intro xs
  induction xs with
  | nil => intro a; exact Or.inl rfl
  | cons x t ih =>
    intro a
    rcases ih (max a x) with h | h
    · rcases max_choice a x with hm | hm
      · exact Or.inl (by rw [List.foldl_cons, h, hm])
      · exact Or.inr (by rw [List.foldl_cons, h, hm]; exact List.mem_cons_self x t)
    · exact Or.inr (List.mem_cons_of_mem x h)

theorem lmax_mem (xs : List ℝ) (h : xs ≠ []) : lmax xs ∈ xs := by
  cases xs with
  | nil => cases h rfl
  | cons x t =>
    rcases foldl_max_eq_or_mem t x with h1 | h1
    · simp only [lmax, h1]
      exact List.mem_cons_self x t
    · exact List.mem_cons_of_mem x (by simpa [lmax] using h1)

theorem le_foldl_max_init : ∀ (xs : List ℝ) (a : ℝ), a ≤ xs.foldl max a := by
  intro xs
  induction xs with
  | nil => intro a; exact le_refl a
  | cons x t ih => intro a; exact le_trans (le_max_left a x) (ih (max a x))

theorem le_foldl_max_of_mem : ∀ (xs : List ℝ) (a b : ℝ), b ∈ xs → b ≤ xs.foldl max a := by
  intro xs
  induction xs with
  | nil => intro a b hb; cases hb
  | cons x t ih =>
    intro a b hb
    rcases List.mem_cons.mp hb with rfl | hb
    · exact le_trans (le_max_right a b) (le_foldl_max_init t (max a b))
    · exact ih (max a x) b hb

theorem le_lmax (xs : List ℝ) (b : ℝ) (hb : b ∈ xs) : b ≤ lmax xs := by
  cases xs with
  | nil => cases hb
  | cons x t =>
    rcases List.mem_cons.mp hb with rfl | hb
    · simpa [lmax] using le_foldl_max_init t b
    · simpa [lmax] using le_foldl_max_of_mem t x b hb

theorem lmax_eq_of (xs : List ℝ) (a : ℝ) (ha : a ∈ xs) (hle : ∀ y ∈ xs, y ≤ a) :
    lmax xs = a :=
  le_antisymm (hle _ (lmax_mem xs (List.ne_nil_of_mem ha))) (le_lmax xs a ha)

theorem lmax_pos (xs : List ℝ) (h : xs ≠ []) (hpos : ∀ y ∈ xs, 0 < y) : 0 < lmax xs :=
  hpos _ (lmax_mem xs h)

theorem flatten_map_map (f : ℝ → ℝ) (m : List (List ℝ)) :
    (m.map (fun row => row.map f)).flatten = m.flatten.map f :=
  (List.map_flatten f m).symm

theorem map_map_div_one (m : List (List ℝ)) :
    m.map (fun row => row.map (fun x => x / (1 : ℝ))) = m := by
  simp [div_one]

/-! ### Facts about the raw broadcast array and the canonical grid -/

theorem rawProfile_row_mem {am pk wd ph : List ℝ} {row : List ℝ}
    (h : row ∈ rawProfile am pk wd ph) :
    ∃ a p w, a ∈ am ∧ (p, w) ∈ pk.zip wd ∧ row = ph.map (gaussVal a p w) := by
  rcases List.mem_map.mp h with ⟨t, ht, rfl⟩
  rcases List.of_mem_zip ht with ⟨ha, hpw⟩
  exact ⟨t.1, t.2.1, t.2.2, ha, by simpa using hpw, rfl⟩

theorem rawProfile_flatten_pos {am pk wd ph : List ℝ} (hamp : ∀ a ∈ am, 0 < a) :
    ∀ y ∈ (rawProfile am pk wd ph).flatten, 0 < y := by
  intro y hy
  rcases List.mem_flatten.mp hy with ⟨row, hrow, hyrow⟩
  rcases rawProfile_row_mem hrow with ⟨a, p, w, ha, _, rfl⟩
  rcases List.mem_map.mp hyrow with ⟨x, _, rfl⟩
  exact mul_pos (hamp a ha) (Real.exp_pos _)

theorem rawProfile_flatten_ne_nil {am pk wd ph : List ℝ}
    (ham : am ≠ []) (hpk : pk ≠ []) (hwd : wd ≠ []) (hph : ph ≠ []) :
    (rawProfile am pk wd ph).flatten ≠ [] := by
  cases am with
  | nil => cases ham rfl
  | cons a am2 =>
    cases pk with
    | nil => cases hpk rfl
    | cons p pk2 =>
      cases wd with
      | nil => cases hwd rfl
      | cons w wd2 =>
        cases ph with
        | nil => cases hph rfl
        | cons x ph2 =>
          simp [rawProfile]

theorem phaseGrid_ne_nil {Nphase : ℕ} (h : 1 ≤ Nphase) : phaseGrid Nphase ≠ [] := by
  intro hnil
  have hlen : (phaseGrid Nphase).length = Nphase := by simp [phaseGrid]
  rw [hnil] at hlen
  simp at hlen
  omega

theorem zero_mem_phaseGrid {Nphase : ℕ} (h : 0 < Nphase) : (0 : ℝ) ∈ phaseGrid Nphase := by
  have h0 : (0 : ℕ) ∈ List.range Nphase := List.mem_range.mpr h
  have h1 : ((0 : ℕ) : ℝ) / (Nphase : ℝ) ∈ phaseGrid Nphase := List.mem_map_of_mem _ h0
  simpa using h1

theorem gaussVal_peak (a p w : ℝ) : gaussVal a p w p = a := by
  simp [gaussVal]

theorem gaussVal_le (p w x : ℝ) {a : ℝ} (ha : 0 ≤ a) : gaussVal a p w x ≤ a := by
  refine mul_le_of_le_one_right ha (Real.exp_le_one_iff.mpr ?_)
  have h1 : (-(1 / 2) : ℝ) ≤ 0 := by norm_num
  exact mul_nonpos_iff.mpr (Or.inr ⟨h1, sq_nonneg _⟩)

theorem lmax_rawProfile_single (a p w : ℝ) (ph : List ℝ) (hp : p ∈ ph) (ha : 0 ≤ a) :
    lmax (rawProfile [a] [p] [w] ph).flatten = a := by
  have hflat : (rawProfile [a] [p] [w] ph).flatten = ph.map (gaussVal a p w) := by
    simp [rawProfile]
  rw [hflat]
  refine lmax_eq_of _ a (List.mem_map.mpr ⟨p, hp, gaussVal_peak a p w⟩) ?_
  intro y hy
  rcases List.mem_map.mp hy with ⟨x, _, rfl⟩
  exact gaussVal_le p w x ha

/-! ### Evaluation lemmas for `calc_profile` and `init_profile` -/

theorem calc_profile_fresh_eq (pk wd am : List ℝ) (p0 : Option (List (List ℝ)))
    (ph : List ℝ) (hl1 : am.length = pk.length) (hl2 : pk.length = wd.length)
    (hne : (rawProfile am pk wd ph).flatten ≠ []) :
    calc_profile ⟨Param.array pk, Param.array wd, Param.array am, p0, none⟩ ph
      = Except.ok ((rawProfile am pk wd ph).map
          (fun row => row.map (fun x => x / lmax (rawProfile am pk wd ph).flatten)),
        ⟨Param.array pk, Param.array wd, Param.array am, p0, none⟩) := by
  have hie : (rawProfile am pk wd ph).flatten.isEmpty = false :=
    List.isEmpty_eq_false.mpr hne
  simp only [calc_profile, hie, if_pos (And.intro hl1 hl2), Bool.false_eq_true, if_false]

theorem calc_profile_cached_eq (pk wd am : List ℝ) (p0 : Option (List (List ℝ)))
    (A : ℝ) (ph : List ℝ) (hl1 : am.length = pk.length) (hl2 : pk.length = wd.length) :
    calc_profile ⟨Param.array pk, Param.array wd, Param.array am, p0, some A⟩ ph
      = Except.ok ((rawProfile am pk wd ph).map (fun row => row.map (fun x => x / A)),
        ⟨Param.array pk, Param.array wd, Param.array am, p0, some A⟩) := by
  simp only [calc_profile, if_pos (And.intro hl1 hl2)]

theorem init_profile_fresh_eq (pk wd am : List ℝ) (p0 : Option (List (List ℝ)))
    (Nphase : ℕ) (hl1 : am.length = pk.length) (hl2 : pk.length = wd.length)
    (hne : (rawProfile am pk wd (phaseGrid Nphase)).flatten ≠ [])
    (hR : 0 < lmax (rawProfile am pk wd (phaseGrid Nphase)).flatten) :
    init_profile ⟨Param.array pk, Param.array wd, Param.array am, p0, none⟩ Nphase
      = Except.ok ⟨Param.array pk, Param.array wd, Param.array am,
          some ((rawProfile am pk wd (phaseGrid Nphase)).map
            (fun row => row.map
              (fun x => x / lmax (rawProfile am pk wd (phaseGrid Nphase)).flatten))),
          some 1⟩ := by
  have hcalc := calc_profile_fresh_eq pk wd am p0 (phaseGrid Nphase) hl1 hl2 hne
  have hpf : ((rawProfile am pk wd (phaseGrid Nphase)).map
      (fun row => row.map
        (fun x => x / lmax (rawProfile am pk wd (phaseGrid Nphase)).flatten))).flatten
      = (rawProfile am pk wd (phaseGrid Nphase)).flatten.map
          (fun x => x / lmax (rawProfile am pk wd (phaseGrid Nphase)).flatten) :=
    flatten_map_map _ _
  have hpne : ((rawProfile am pk wd (phaseGrid Nphase)).map
      (fun row => row.map
        (fun x => x / lmax (rawProfile am pk wd (phaseGrid Nphase)).flatten))).flatten ≠ [] := by
    rw [hpf]
    simpa [List.map_eq_nil_iff] using hne
  have hA : lmax ((rawProfile am pk wd (phaseGrid Nphase)).map
      (fun row => row.map
        (fun x => x / lmax (rawProfile am pk wd (phaseGrid Nphase)).flatten))).flatten = 1 := by
    rw [hpf, lmax_map_div _ hne (le_of_lt hR), div_self hR.ne']
  have hie : ((rawProfile am pk wd (phaseGrid Nphase)).map
      (fun row => row.map
        (fun x => x / lmax (rawProfile am pk wd (phaseGrid Nphase)).flatten))).flatten.isEmpty
      = false := List.isEmpty_eq_false.mpr hpne
  simp only [init_profile, hcalc, hie, Bool.false_eq_true, if_false, hA, map_map_div_one]

theorem init_profile_cached_eq (pk wd am : List ℝ) (p0 : Option (List (List ℝ)))
    (A : ℝ) (hA : 0 < A) (Nphase : ℕ)
    (hl1 : am.length = pk.length) (hl2 : pk.length = wd.length)
    (hne : (rawProfile am pk wd (phaseGrid Nphase)).flatten ≠ []) :
    init_profile ⟨Param.array pk, Param.array wd, Param.array am, p0, some A⟩ Nphase
      = Except.ok ⟨Param.array pk, Param.array wd, Param.array am,
          some (((rawProfile am pk wd (phaseGrid Nphase)).map
              (fun row => row.map (fun x => x / A))).map
            (fun row => row.map
              (fun x => x / (lmax (rawProfile am pk wd (phaseGrid Nphase)).flatten / A)))),
          some (lmax (rawProfile am pk wd (phaseGrid Nphase)).flatten / A)⟩ := by
  have hcalc := calc_profile_cached_eq pk wd am p0 A (phaseGrid Nphase) hl1 hl2
  have hpf : ((rawProfile am pk wd (phaseGrid Nphase)).map
      (fun row => row.map (fun x => x / A))).flatten
      = (rawProfile am pk wd (phaseGrid Nphase)).flatten.map (fun x => x / A) :=
    flatten_map_map _ _
  have hpne : ((rawProfile am pk wd (phaseGrid Nphase)).map
      (fun row => row.map (fun x => x / A))).flatten ≠ [] := by
    rw [hpf]
    simpa [List.map_eq_nil_iff] using hne
  have hA2 : lmax ((rawProfile am pk wd (phaseGrid Nphase)).map
      (fun row => row.map (fun x => x / A))).flatten
      = lmax (rawProfile am pk wd (phaseGrid Nphase)).flatten / A := by
    rw [hpf, lmax_map_div _ hne (le_of_lt hA)]
  have hie : ((rawProfile am pk wd (phaseGrid Nphase)).map
      (fun row => row.map (fun x => x / A))).flatten.isEmpty = false :=
    List.isEmpty_eq_false.mpr hpne
  simp only [init_profile, hcalc, hie, Bool.false_eq_true, if_false, hA2]

theorem init_profile_fresh_general (pk wd am : List ℝ) (p0 : Option (List (List ℝ)))
    (Nphase : ℕ) (hl1 : am.length = pk.length) (hl2 : pk.length = wd.length)
    (hne : (rawProfile am pk wd (phaseGrid Nphase)).flatten ≠ []) :
    init_profile ⟨Param.array pk, Param.array wd, Param.array am, p0, none⟩ Nphase
      = Except.ok ⟨Param.array pk, Param.array wd, Param.array am,
          some (((rawProfile am pk wd (phaseGrid Nphase)).map
              (fun row => row.map
                (fun x => x / lmax (rawProfile am pk wd (phaseGrid Nphase)).flatten))).map
            (fun row => row.map
              (fun x => x / lmax ((rawProfile am pk wd (phaseGrid Nphase)).map
                (fun row => row.map
                  (fun x => x / lmax (rawProfile am pk wd (phaseGrid Nphase)).flatten))).flatten))),
          some (lmax ((rawProfile am pk wd (phaseGrid Nphase)).map
            (fun row => row.map
              (fun x => x / lmax (rawProfile am pk wd (phaseGrid Nphase)).flatten))).flatten)⟩ := by
  have hcalc := calc_profile_fresh_eq pk wd am p0 (phaseGrid Nphase) hl1 hl2 hne
  have hpf : ((rawProfile am pk wd (phaseGrid Nphase)).map
      (fun row => row.map
        (fun x => x / lmax (rawProfile am pk wd (phaseGrid Nphase)).flatten))).flatten
      = (rawProfile am pk wd (phaseGrid Nphase)).flatten.map
          (fun x => x / lmax (rawProfile am pk wd (phaseGrid Nphase)).flatten) :=
    flatten_map_map _ _
  have hpne : ((rawProfile am pk wd (phaseGrid Nphase)).map
      (fun row => row.map
        (fun x => x / lmax (rawProfile am pk wd (phaseGrid Nphase)).flatten))).flatten ≠ [] := by
    rw [hpf]
    simpa [List.map_eq_nil_iff] using hne
  have hie : ((rawProfile am pk wd (phaseGrid Nphase)).map
      (fun row => row.map
        (fun x => x / lmax (rawProfile am pk wd (phaseGrid Nphase)).flatten))).flatten.isEmpty
      = false := List.isEmpty_eq_false.mpr hpne
  simp only [init_profile, hcalc, hie, Bool.false_eq_true, if_false]

/-! ### Frame lemmas -/

theorem calc_profile_preserves_state :
    ∀ (s : GPState) (ph : List ℝ) (m : List (List ℝ)) (s2 : GPState),
      calc_profile s ph = Except.ok (m, s2) → s2 = s := by
  intro s ph m s2 h
  unfold calc_profile at h
  split at h
  · split at h
    · split at h
      · simp only [Except.ok.injEq, Prod.mk.injEq] at h
        exact h.2.symm
      · dsimp only at h
        split at h
        · exact absurd h (by simp)
        · simp only [Except.ok.injEq, Prod.mk.injEq] at h
          exact h.2.symm
    · exact absurd h (by simp)
  · exact absurd h (by simp)

theorem init_profile_preserves_params :
    ∀ (s : GPState) (n : ℕ) (s2 : GPState),
      init_profile s n = Except.ok s2 →
        s2._peak = s._peak ∧ s2._width = s._width ∧ s2._amp = s._amp := by
  intro s n s2 h
  unfold init_profile at h
  split at h
  · exact absurd h (by simp)
  · rename_i prof s1 heq
    have hs1 : s1 = s := calc_profile_preserves_state s (phaseGrid n) prof s1 heq
    split at h
    · exact absurd h (by simp)
    · simp only [Except.ok.injEq] at h
      rw [← h, hs1]
      exact ⟨rfl, rfl, rfl⟩

/-! ### Claim theorems -/

/-- C1: the spec says a no-phase query on a never-initialized portrait warns
once and returns `None` without raising, and returns the cached profile once
initialized.  The code instead reads `self._portrait`, an attribute that is
never defined (the class attribute is `_profile`), so every no-phase query —
initialized or not — raises `AttributeError` and emits no warning.  This
theorem evaluates the code on that path: for every instance state the call
with `phases=None` raises. -/
theorem C1_query_no_phases_raises_attribute_error :
    ∀ s : GPState, PulsePortrait_call s none
      = Except.error (PyErr.attributeError "_portrait") :=
  fun _ => rfl

/-- C2: the spec says an explicit-phase query on a 1-D `GaussPortrait`
delegates to the subclass evaluator and returns intensities.  The code's
`__call__` invokes `self.calc_portrait`, which the 1-D `GaussPortrait` never
overrides (it defines `calc_profile` instead), so dispatch reaches the base
method and every explicit-phase query raises `NotImplementedError`.  This
theorem evaluates the code on that path. -/
theorem C2_explicit_query_raises_not_implemented :
    ∀ (s : GPState) (ph : List ℝ), PulsePortrait_call s (some ph)
      = Except.error PyErr.notImplementedError :=
  fun _ _ => rfl

/-- C3: the spec says scalar parameters are handled by computing the Gaussian
formula directly, and `GaussPortrait(peak=0.5, width=0.05, amp=1)` followed by
`init_profile(256)` yields a 256-bin profile peaking at index 128.  In the
code the scalar path lands in the `except TypeError:` branch, whose local
accumulator `profile` is never initialized (the line `profile = np.zeros_like(ph)`
is commented out), so both `calc_profile` and `init_profile(256)` die with
`UnboundLocalError` on every scalar-parameter instance.  This theorem
evaluates the code at exactly the spec's concrete scenario. -/
theorem C3_scalar_parameters_unbound_local :
    calc_profile scalarPortrait [1 / 2]
        = Except.error (PyErr.unboundLocalError "profile")
      ∧ init_profile scalarPortrait 256
        = Except.error (PyErr.unboundLocalError "profile") :=
  ⟨rfl, rfl⟩

/-- C8: `calc_portrait` on the base `PulsePortrait` raises
`NotImplementedError`, and the constructors of the 2-D frequency-resolved
`GaussPortrait` and of `UserPortrait` raise `NotImplementedError`
unconditionally for every argument combination; the error propagates directly
to the caller (modelled as the returned `Except.error`). -/
theorem C8_not_implemented_paths :
    (∀ (s : GPState) (ph : List ℝ),
        PulsePortrait_calc_portrait s ph = Except.error PyErr.notImplementedError)
      ∧ (∀ (peak width amp : Param) (Nphase : ℕ) (freqs : Option (List ℝ)),
        GaussPortrait2D_init peak width amp Nphase freqs
          = Except.error PyErr.notImplementedError)
      ∧ UserPortrait_init = Except.error PyErr.notImplementedError :=
  ⟨fun _ _ => rfl, fun _ _ _ _ _ => rfl, rfl⟩

/-- C9: `calc_profile` leaves the instance state unchanged (the state it
returns is the state it was given, hence `peak`, `width`, `amp`, the cached
profile and the cached Amax are all preserved), and `init_profile` writes only
the cached `_profile` and `_Amax` fields, leaving `peak`, `width` and `amp`
unchanged. -/
theorem C9_calc_pure_init_writes_cache_only :
    (∀ (s : GPState) (ph : List ℝ) (m : List (List ℝ)) (s2 : GPState),
        calc_profile s ph = Except.ok (m, s2) → s2 = s)
      ∧ (∀ (s : GPState) (n : ℕ) (s2 : GPState),
        init_profile s n = Except.ok s2 →
          s2._peak = s._peak ∧ s2._width = s._width ∧ s2._amp = s._amp) :=
  ⟨calc_profile_preserves_state, init_profile_preserves_params⟩

/-- Witness for C9: on the concrete single-component array portrait
`unitPortrait` queried at phases `[0]`, `calc_profile` succeeds and by the
frame theorem returns the state unchanged. -/
theorem C9_witness :
    calc_profile unitPortrait [0] = Except.ok (unitCalcResult, unitPortrait)
      ∧ unitPortrait = unitPortrait := by
  have hne : (rawProfile [1] [0] [1] [0]).flatten ≠ [] :=
    rawProfile_flatten_ne_nil (List.cons_ne_nil _ _) (List.cons_ne_nil _ _)
      (List.cons_ne_nil _ _) (List.cons_ne_nil _ _)
  have hcalc : calc_profile unitPortrait [0] = Except.ok (unitCalcResult, unitPortrait) :=
    calc_profile_fresh_eq [0] [1] [1] none [0] rfl rfl hne
  exact ⟨hcalc, C9_calc_pure_init_writes_cache_only.1 unitPortrait [0] unitCalcResult
    unitPortrait hcalc ▸ rfl⟩

/-- C4: the spec says `calc_profile` with N equal-length components and M
query phases sums over the component axis and returns a one-dimensional
array of length M.  The code's broadcast expression never sums (its own
comment reads `sum of Gaussian components`), so the spec's two-component
portrait queried at three phases gets back a two-row (2 × 3) array, not a
length-3 vector.  This theorem evaluates the code at that input. -/
theorem C4_two_component_query_returns_2d :
    ∃ m : List (List ℝ),
      calc_profile twoCompPortrait [0, 1 / 3, 2 / 3] = Except.ok (m, twoCompPortrait)
        ∧ m.length = 2 ∧ ∀ row ∈ m, row.length = 3 := by
  have hne : (rawProfile [1, 1 / 2] [1 / 5, 7 / 10] [1 / 20, 1 / 20]
      [0, 1 / 3, 2 / 3]).flatten ≠ [] :=
    rawProfile_flatten_ne_nil (List.cons_ne_nil _ _) (List.cons_ne_nil _ _)
      (List.cons_ne_nil _ _) (List.cons_ne_nil _ _)
  refine ⟨_, calc_profile_fresh_eq [1 / 5, 7 / 10] [1 / 20, 1 / 20] [1, 1 / 2] none
    [0, 1 / 3, 2 / 3] rfl rfl hne, ?_, ?_⟩
  · simp [rawProfile]
  · intro row hrow
    rcases List.mem_map.mp hrow with ⟨r0, hr0, rfl⟩
    rcases rawProfile_row_mem hr0 with ⟨a, p, w, _, _, rfl⟩
    simp

/-- C10: on a fresh 1-D `GaussPortrait` (no cached Amax) with equal-length
array parameters and a non-empty phase query whose raw intensity maximum is
positive, the array `calc_profile` returns is normalized by its own maximum,
so its maximum value is exactly 1. -/
theorem C10_fresh_query_self_normalized (pk wd am ph : List ℝ)
    (hl1 : am.length = pk.length) (hl2 : pk.length = wd.length)
    (ham : am ≠ []) (hph : ph ≠ [])
    (hpos : 0 < lmax (rawProfile am pk wd ph).flatten) :
    ∃ m : List (List ℝ),
      calc_profile (GaussPortrait_init (Param.array pk) (Param.array wd) (Param.array am)) ph
          = Except.ok (m, GaussPortrait_init (Param.array pk) (Param.array wd) (Param.array am))
        ∧ lmax m.flatten = 1 := by
  have hpk : pk ≠ [] := by
    intro hcon
    rw [hcon] at hl1
    exact ham (List.length_eq_zero.mp (by simpa using hl1))
  have hwd : wd ≠ [] := by
    intro hcon
    rw [hcon] at hl2
    exact hpk (List.length_eq_zero.mp (by simpa using hl2))
  have hne : (rawProfile am pk wd ph).flatten ≠ [] :=
    rawProfile_flatten_ne_nil ham hpk hwd hph
  refine ⟨_, calc_profile_fresh_eq pk wd am none ph hl1 hl2 hne, ?_⟩
  rw [flatten_map_map, lmax_map_div _ hne (le_of_lt hpos), div_self hpos.ne']

/-- Witness for C10 on the concrete portrait `peak=[0]`, `width=[1]`,
`amp=[1]` queried at `[0]`: its raw maximum is positive and the returned
array has maximum exactly 1. -/
theorem C10_witness :
    0 < lmax (rawProfile [1] [0] [1] [0]).flatten
      ∧ ∃ m : List (List ℝ),
        calc_profile unitPortrait [0] = Except.ok (m, unitPortrait)
          ∧ lmax m.flatten = 1 := by
  have hpos : 0 < lmax (rawProfile [1] [0] [1] [0]).flatten := by
    rw [lmax_rawProfile_single 1 0 1 [0] (by simp) zero_le_one]
    exact zero_lt_one
  exact ⟨hpos, C10_fresh_query_self_normalized [0] [1] [1] [0] rfl rfl
    (List.cons_ne_nil _ _) (List.cons_ne_nil _ _) hpos⟩

/-- C5 counterexample: on the concrete fresh portrait `peak=[0]`, `width=[1]`,
`amp=[2]` with `Nphase=1`, the raw pre-normalization maximum over the
canonical grid is 2, yet `init_profile` caches `Amax = 1` (the maximum of the
array already normalized inside `calc_profile`), so the claim that the cached
Amax equals the raw maximum is false. -/
theorem C5_cex_cached_amax_is_one_not_raw_max :
    amaxOf (init_profile ampTwoPortrait 1) = some 1
      ∧ lmax (rawProfile [2] [0] [1] (phaseGrid 1)).flatten = 2
      ∧ (1 : ℝ) ≠ 2 := by
  have hraw : lmax (rawProfile [2] [0] [1] (phaseGrid 1)).flatten = 2 :=
    lmax_rawProfile_single 2 0 1 (phaseGrid 1) (zero_mem_phaseGrid one_pos) (by norm_num)
  have hne : (rawProfile [2] [0] [1] (phaseGrid 1)).flatten ≠ [] :=
    rawProfile_flatten_ne_nil (List.cons_ne_nil _ _) (List.cons_ne_nil _ _)
      (List.cons_ne_nil _ _) (phaseGrid_ne_nil le_rfl)
  have hR : 0 < lmax (rawProfile [2] [0] [1] (phaseGrid 1)).flatten := by
    rw [hraw]
    norm_num
  have hinit : init_profile ampTwoPortrait 1
      = Except.ok ⟨Param.array [0], Param.array [1], Param.array [2],
          some ((rawProfile [2] [0] [1] (phaseGrid 1)).map
            (fun row => row.map
              (fun x => x / lmax (rawProfile [2] [0] [1] (phaseGrid 1)).flatten))),
          some 1⟩ :=
    init_profile_fresh_eq [0] [1] [2] none 1 rfl rfl hne hR
  refine ⟨?_, hraw, by norm_num⟩
  rw [hinit]
  rfl

/-- C5 amended: after the first `init_profile(Nphase)` on a fresh 1-D
`GaussPortrait` with array parameters, the cached profile equals the raw
pre-normalization array divided by the raw maximum, but the cached `Amax` is
the maximum of the array already normalized by `calc_profile`, i.e. exactly
1 — not the raw pre-normalization maximum. -/
theorem C5_first_init_caches_normalized_profile_and_amax_one
    (pk wd am : List ℝ) (Nphase : ℕ)
    (hl1 : am.length = pk.length) (hl2 : pk.length = wd.length)
    (hne : (rawProfile am pk wd (phaseGrid Nphase)).flatten ≠ [])
    (hR : 0 < lmax (rawProfile am pk wd (phaseGrid Nphase)).flatten) :
    init_profile (GaussPortrait_init (Param.array pk) (Param.array wd) (Param.array am)) Nphase
      = Except.ok ⟨Param.array pk, Param.array wd, Param.array am,
          some ((rawProfile am pk wd (phaseGrid Nphase)).map
            (fun row => row.map
              (fun x => x / lmax (rawProfile am pk wd (phaseGrid Nphase)).flatten))),
          some 1⟩ :=
  init_profile_fresh_eq pk wd am none Nphase hl1 hl2 hne hR

/-- Witness for the amended C5 on the concrete portrait `peak=[0]`,
`width=[1]`, `amp=[2]` with `Nphase=1`. -/
theorem C5_witness :
    (rawProfile [2] [0] [1] (phaseGrid 1)).flatten ≠ []
      ∧ 0 < lmax (rawProfile [2] [0] [1] (phaseGrid 1)).flatten
      ∧ init_profile (GaussPortrait_init (Param.array [0]) (Param.array [1]) (Param.array [2])) 1
        = Except.ok ⟨Param.array [0], Param.array [1], Param.array [2],
            some ((rawProfile [2] [0] [1] (phaseGrid 1)).map
              (fun row => row.map
                (fun x => x / lmax (rawProfile [2] [0] [1] (phaseGrid 1)).flatten))),
            some 1⟩ := by
  have hne : (rawProfile [2] [0] [1] (phaseGrid 1)).flatten ≠ [] :=
    rawProfile_flatten_ne_nil (List.cons_ne_nil _ _) (List.cons_ne_nil _ _)
      (List.cons_ne_nil _ _) (phaseGrid_ne_nil le_rfl)
  have hR : 0 < lmax (rawProfile [2] [0] [1] (phaseGrid 1)).flatten := by
    rw [lmax_rawProfile_single 2 0 1 (phaseGrid 1) (zero_mem_phaseGrid one_pos) (by norm_num)]
    norm_num
  exact ⟨hne, hR,
    C5_first_init_caches_normalized_profile_and_amax_one [0] [1] [2] 1 rfl rfl hne hR⟩

/-- C6 counterexample: on the concrete fresh portrait `peak=[0]`, `width=[1]`,
`amp=[2]`, calling `init_profile(256)` once caches `Amax = 1`, while calling
it a second time caches `Amax = 2` (the raw grid maximum), because the second
`calc_profile` divides by the previously cached `Amax` instead of
self-normalizing.  The claim that both calls yield the same `Amax` is
therefore false. -/
theorem C6_cex_amax_changes_across_repeat_inits :
    amaxOf (init_profile ampTwoPortrait 256) = some 1
      ∧ amaxOf (Except.bind (init_profile ampTwoPortrait 256) (fun s => init_profile s 256))
        = some 2
      ∧ (1 : ℝ) ≠ 2 := by
  have hraw : lmax (rawProfile [2] [0] [1] (phaseGrid 256)).flatten = 2 :=
    lmax_rawProfile_single 2 0 1 (phaseGrid 256) (zero_mem_phaseGrid (by norm_num))
      (by norm_num)
  have hne : (rawProfile [2] [0] [1] (phaseGrid 256)).flatten ≠ [] :=
    rawProfile_flatten_ne_nil (List.cons_ne_nil _ _) (List.cons_ne_nil _ _)
      (List.cons_ne_nil _ _) (phaseGrid_ne_nil (by norm_num))
  have hR : 0 < lmax (rawProfile [2] [0] [1] (phaseGrid 256)).flatten := by
    rw [hraw]
    norm_num
  have hinit1 : init_profile ampTwoPortrait 256
      = Except.ok ⟨Param.array [0], Param.array [1], Param.array [2],
          some ((rawProfile [2] [0] [1] (phaseGrid 256)).map
            (fun row => row.map
              (fun x => x / lmax (rawProfile [2] [0] [1] (phaseGrid 256)).flatten))),
          some 1⟩ :=
    init_profile_fresh_eq [0] [1] [2] none 256 rfl rfl hne hR
  have hinit2 := init_profile_cached_eq [0] [1] [2]
    (some ((rawProfile [2] [0] [1] (phaseGrid 256)).map
      (fun row => row.map
        (fun x => x / lmax (rawProfile [2] [0] [1] (phaseGrid 256)).flatten))))
    1 one_pos 256 rfl rfl hne
  refine ⟨by rw [hinit1]; rfl, ?_, by norm_num⟩
  rw [hinit1, Except.bind, hinit2]
  simp [amaxOf, div_one, hraw]

/-- C6 amended: calling `init_profile(256)` twice in a row on a fresh
array-parameter portrait yields the same cached profile after each of the two
calls, but not the same `Amax`: the first call caches `Amax = 1`, the second
caches the raw pre-normalization grid maximum (they agree only when that
maximum is 1). -/
theorem C6_repeat_init_same_profile_different_amax (pk wd am : List ℝ)
    (hl1 : am.length = pk.length) (hl2 : pk.length = wd.length)
    (hne : (rawProfile am pk wd (phaseGrid 256)).flatten ≠ [])
    (hR : 0 < lmax (rawProfile am pk wd (phaseGrid 256)).flatten) :
    ∃ s1 s2 : GPState,
      init_profile (GaussPortrait_init (Param.array pk) (Param.array wd) (Param.array am)) 256
          = Except.ok s1
        ∧ init_profile s1 256 = Except.ok s2
        ∧ s2._profile = s1._profile
        ∧ s1._Amax = some 1
        ∧ s2._Amax = some (lmax (rawProfile am pk wd (phaseGrid 256)).flatten) := by
  have h1 := init_profile_fresh_eq pk wd am none 256 hl1 hl2 hne hR
  have h2 := init_profile_cached_eq pk wd am
    (some ((rawProfile am pk wd (phaseGrid 256)).map
      (fun row => row.map
        (fun x => x / lmax (rawProfile am pk wd (phaseGrid 256)).flatten))))
    1 one_pos 256 hl1 hl2 hne
  simp only [div_one, List.map_id'] at h2
  exact ⟨_, _, h1, h2, rfl, rfl, rfl⟩

/-- Witness for the amended C6 on the concrete portrait `peak=[0]`,
`width=[1]`, `amp=[2]`. -/
theorem C6_witness :
    (rawProfile [2] [0] [1] (phaseGrid 256)).flatten ≠ []
      ∧ 0 < lmax (rawProfile [2] [0] [1] (phaseGrid 256)).flatten
      ∧ ∃ s1 s2 : GPState,
        init_profile (GaussPortrait_init (Param.array [0]) (Param.array [1])
            (Param.array [2])) 256 = Except.ok s1
          ∧ init_profile s1 256 = Except.ok s2
          ∧ s2._profile = s1._profile
          ∧ s1._Amax = some 1
          ∧ s2._Amax = some (lmax (rawProfile [2] [0] [1] (phaseGrid 256)).flatten) := by
  have hne : (rawProfile [2] [0] [1] (phaseGrid 256)).flatten ≠ [] :=
    rawProfile_flatten_ne_nil (List.cons_ne_nil _ _) (List.cons_ne_nil _ _)
      (List.cons_ne_nil _ _) (phaseGrid_ne_nil (by norm_num))
  have hR : 0 < lmax (rawProfile [2] [0] [1] (phaseGrid 256)).flatten := by
    rw [lmax_rawProfile_single 2 0 1 (phaseGrid 256) (zero_mem_phaseGrid (by norm_num))
      (by norm_num)]
    norm_num
  exact ⟨hne, hR,
    C6_repeat_init_same_profile_different_amax [0] [1] [2] rfl rfl hne hR⟩

/-- C7 counterexample: the spec's validity notion admits scalar parameter
sets, and `GaussPortrait(peak=0.5, width=0.05, amp=1)` — the constructor's own
defaults — is one.  On it `init_profile(1)` (so `Nphase ≥ 1`) dies with
`UnboundLocalError` and caches nothing, so the claim that every valid
parameter set yields a cached canonical profile of maximum 1 is false at this
input. -/
theorem C7_cex_valid_scalar_set_caches_nothing :
    init_profile scalarPortrait 1 = Except.error (PyErr.unboundLocalError "profile")
      ∧ profileOf (init_profile scalarPortrait 1) = none :=
  ⟨rfl, rfl⟩

/-- C7 amended: for every equal-length array parameter set with at least one
component and every `Nphase ≥ 1`, the canonical profile cached by
`init_profile(Nphase)` has maximum value exactly 1: on a fresh portrait
whenever the raw grid maximum is nonzero (the amplitudes are sign-free), and
on a portrait with a previously cached positive `Amax` whenever the raw grid
maximum is positive.  Spec-valid scalar parameter sets are excluded because
`init_profile` crashes on them before caching anything. -/
theorem C7_init_caches_profile_with_max_one (pk wd am : List ℝ)
    (p0 : Option (List (List ℝ))) (mA : Option ℝ) (Nphase : ℕ)
    (hl1 : am.length = pk.length) (hl2 : pk.length = wd.length)
    (ham : am ≠ []) (hNp : 1 ≤ Nphase)
    (hA : mA = none ∧ lmax (rawProfile am pk wd (phaseGrid Nphase)).flatten ≠ 0
      ∨ (∃ A, mA = some A ∧ 0 < A)
          ∧ 0 < lmax (rawProfile am pk wd (phaseGrid Nphase)).flatten) :
    ∃ (s2 : GPState) (P : List (List ℝ)),
      init_profile ⟨Param.array pk, Param.array wd, Param.array am, p0, mA⟩ Nphase
          = Except.ok s2
        ∧ s2._profile = some P ∧ lmax P.flatten = 1 := by
  have hpk : pk ≠ [] := by
    intro hcon
    rw [hcon] at hl1
    exact ham (List.length_eq_zero.mp (by simpa using hl1))
  have hwd : wd ≠ [] := by
    intro hcon
    rw [hcon] at hl2
    exact hpk (List.length_eq_zero.mp (by simpa using hl2))
  have hne : (rawProfile am pk wd (phaseGrid Nphase)).flatten ≠ [] :=
    rawProfile_flatten_ne_nil ham hpk hwd (phaseGrid_ne_nil hNp)
  rcases hA with ⟨rfl, hRnz⟩ | ⟨⟨A, rfl, hApos⟩, hRpos⟩
  · have hpf : ((rawProfile am pk wd (phaseGrid Nphase)).map
        (fun row => row.map
          (fun x => x / lmax (rawProfile am pk wd (phaseGrid Nphase)).flatten))).flatten
        = (rawProfile am pk wd (phaseGrid Nphase)).flatten.map
            (fun x => x / lmax (rawProfile am pk wd (phaseGrid Nphase)).flatten) :=
      flatten_map_map _ _
    have hpne : ((rawProfile am pk wd (phaseGrid Nphase)).map
        (fun row => row.map
          (fun x => x / lmax (rawProfile am pk wd (phaseGrid Nphase)).flatten))).flatten
        ≠ [] := by
      rw [hpf]
      simpa [List.map_eq_nil_iff] using hne
    have hone : (1 : ℝ) ∈ ((rawProfile am pk wd (phaseGrid Nphase)).map
        (fun row => row.map
          (fun x => x / lmax (rawProfile am pk wd (phaseGrid Nphase)).flatten))).flatten := by
      rw [hpf]
      have hmem := List.mem_map_of_mem
        (fun x => x / lmax (rawProfile am pk wd (phaseGrid Nphase)).flatten)
        (lmax_mem _ hne)
      have hmem2 : lmax (rawProfile am pk wd (phaseGrid Nphase)).flatten
            / lmax (rawProfile am pk wd (phaseGrid Nphase)).flatten
          ∈ (rawProfile am pk wd (phaseGrid Nphase)).flatten.map
              (fun x => x / lmax (rawProfile am pk wd (phaseGrid Nphase)).flatten) := hmem
      rwa [div_self hRnz] at hmem2
    have hApos2 : 0 < lmax ((rawProfile am pk wd (phaseGrid Nphase)).map
        (fun row => row.map
          (fun x => x / lmax (rawProfile am pk wd (phaseGrid Nphase)).flatten))).flatten :=
      lt_of_lt_of_le zero_lt_one (le_lmax _ 1 hone)
    refine ⟨_, _, init_profile_fresh_general pk wd am p0 Nphase hl1 hl2 hne, rfl, ?_⟩
    rw [flatten_map_map, lmax_map_div _ hpne (le_of_lt hApos2), div_self hApos2.ne']
  · refine ⟨_, _, init_profile_cached_eq pk wd am p0 A hApos Nphase hl1 hl2 hne, rfl, ?_⟩
    have hne2 : ((rawProfile am pk wd (phaseGrid Nphase)).flatten.map
        (fun x => x / A)) ≠ [] := by
      simpa [List.map_eq_nil_iff] using hne
    rw [flatten_map_map, flatten_map_map, lmax_map_div _ hne2
      (le_of_lt (div_pos hRpos hApos)), lmax_map_div _ hne (le_of_lt hApos),
      div_self (div_pos hRpos hApos).ne']

/-- Witness for the amended C7 on the concrete fresh portrait `peak=[0]`,
`width=[1]`, `amp=[-2]` with `Nphase = 1`: a sign-free (negative) amplitude
whose raw grid maximum is -2, nonzero, so the cached profile still has
maximum exactly 1. -/
theorem C7_witness :
    lmax (rawProfile [-2] [0] [1] (phaseGrid 1)).flatten ≠ 0
      ∧ ∃ (s2 : GPState) (P : List (List ℝ)),
        init_profile ⟨Param.array [0], Param.array [1], Param.array [-2], none, none⟩ 1
            = Except.ok s2
          ∧ s2._profile = some P ∧ lmax P.flatten = 1 := by
  have hgrid : phaseGrid 1 = [0] := by
    simp [phaseGrid, List.range_succ]
  have hval : lmax (rawProfile [-2] [0] [1] (phaseGrid 1)).flatten = -2 := by
    rw [hgrid]
    simp [rawProfile, lmax, gaussVal_peak]
  have hnz : lmax (rawProfile [-2] [0] [1] (phaseGrid 1)).flatten ≠ 0 := by
    rw [hval]
    norm_num
  exact ⟨hnz, C7_init_caches_profile_with_max_one [0] [1] [-2] none none 1 rfl rfl
    (List.cons_ne_nil _ _) le_rfl (Or.inl ⟨rfl, hnz⟩)⟩

end Portraits
